import Mathlib

/-!
Verification of `test_server/server.py` (a programmable mock HTTP server)
against its natural-language specification.

The Python module is shallowly embedded: dictionaries become association
lists over `String` keys, heterogeneous dict values become the inductive
type `Val`, exceptions become `Except PyError`, and the Tornado request
handler becomes an explicit state-passing function.  Machine-level details
(sockets, threads, the event loop) are outside the embedded fragment; the
configuration store, one-shot resolution, request capture, response
composition and the timeout iterator are embedded faithfully.
-/

/-- Values stored in the server's `request` / `response` / `response_once`
Python dictionaries.  A Python function object (used both for the per-method
callback override and for callable `data` bodies) is modelled by `vFunc ret`,
where `ret` is the value it returns when invoked; `vNone` is Python `None`. -/
inductive Val : Type where
  | vNone : Val
  | vInt (n : Int) : Val
  | vRat (q : Rat) : Val
  | vStr (s : String) : Val
  | vPairs (l : List (String × String)) : Val
  | vFunc (ret : Val) : Val
deriving DecidableEq, Repr

/-- Python dict lookup `d.get(k)` over an association list. -/
def dlookup {α : Type} (k : String) : List (String × α) → Option α
  | [] => none
  | p :: rest => if p.1 = k then some p.2 else dlookup k rest

/-- Python `k in d` membership test. -/
def hasKey {α : Type} (k : String) : List (String × α) → Bool
  | [] => false
  | p :: rest => if p.1 = k then true else hasKey k rest

/-- Python dict assignment `d[k] = v`: replace in place when the key exists,
append otherwise (insertion-order semantics). -/
def dset {α : Type} (k : String) (v : α) (l : List (String × α)) :
    List (String × α) :=
  if hasKey k l then l.map (fun p => if p.1 = k then (k, v) else p)
  else l ++ [(k, v)]

/-- Python `del d[k]`. -/
def derase {α : Type} (k : String) : List (String × α) → List (String × α)
  | [] => []
  | p :: rest => if p.1 = k then derase k rest else p :: derase k rest

/-- Exceptions the embedded fragment can raise:
`TestServerRuntimeError(msg)` from `get_param`, `StopIteration` from
`next()` on an exhausted timeout iterator, and `TypeError` from
iterating a non-iterable configured value. -/
inductive PyError : Type where
  | runtimeError (msg : String) : PyError
  | stopIteration : PyError
  | typeError : PyError
deriving DecidableEq, Repr

/-- The mutable configuration store of a `TestServer`: the `response_once`
dict of one-shot overrides and the `response` dict of per-method overrides
and defaults (both keyed by bare field names or `"method.field"` /
`"method_callback"` composites). -/
structure ServerState : Type where
  response_once : List (String × Val)
  response : List (String × Val)
deriving DecidableEq, Repr

/-- `TestServer.get_param` (server.py lines 34-52): four-tier lookup
`response_once["method.key"]` → `response_once[key]` →
`response["method.key"]` → `response[key]`; a one-shot hit is deleted when
`clear_once` is true; no tier raises `TestServerRuntimeError`. -/
def get_param (key : String) (method : String) (clear_once : Bool)
    (s : ServerState) : Except PyError (Val × ServerState) :=
  let method_key := method ++ "." ++ key
  match dlookup method_key s.response_once with
  | some value =>
      .ok (value,
        if clear_once then
          { s with response_once := derase method_key s.response_once }
        else s)
  | none =>
    match dlookup key s.response_once with
    | some value =>
        .ok (value,
          if clear_once then
            { s with response_once := derase key s.response_once }
          else s)
    | none =>
      match dlookup method_key s.response with
      | some value => .ok (value, s)
      | none =>
        match dlookup key s.response with
        | some value => .ok (value, s)
        | none =>
            .error (.runtimeError
              ("Parameter " ++ key ++
               " does not exists in server response data"))

/-- The `response` dict installed by `TestServer.reset`
(server.py lines 64-71). -/
def defaultResponse : List (String × Val) :=
  [("code", .vInt 200), ("data", .vStr ""), ("headers", .vPairs []),
   ("cookies", .vPairs []), ("callback", .vNone), ("sleep", .vNone)]

/-- The configuration store right after `TestServer.reset`:
empty `response_once`, default `response`. -/
def resetState : ServerState :=
  { response_once := [], response := defaultResponse }

/-- The value component of a `get_param` outcome (ignoring the store). -/
def valueOf : Except PyError (Val × ServerState) → Option Val
  | .ok (v, _) => some v
  | .error _ => none

/-- The spec's four-tier resolution order for field `k` under method `m`:
one-shot `"m.k"`, then one-shot `"k"`, then per-method `"m.k"` in the
response store, then default `"k"`. -/
def resolve4 (key : String) (method : String) (s : ServerState) : Option Val :=
  (dlookup (method ++ "." ++ key) s.response_once).orElse fun _ =>
    (dlookup key s.response_once).orElse fun _ =>
      (dlookup (method ++ "." ++ key) s.response).orElse fun _ =>
        dlookup key s.response

/-- Installing a one-shot override (`server.response_once[k] = v`). -/
def setOnce (k : String) (v : Val) (s : ServerState) : ServerState :=
  { s with response_once := dset k v s.response_once }

-- Association-list facts used throughout.

theorem dlookup_derase_self {α : Type} (k : String) (l : List (String × α)) :
    dlookup k (derase k l) = none := by
  induction l with
  | nil => rfl
  | cons p rest ih =>
      by_cases h : p.1 = k
      · simp [derase, h, ih]
      · simp [derase, dlookup, h, ih]

theorem dlookup_derase_ne {α : Type} {k k' : String} (l : List (String × α))
    (h : k' ≠ k) : dlookup k' (derase k l) = dlookup k' l := by
  have h1 : ¬(k = k') := fun he => h he.symm
  induction l with
  | nil => rfl
  | cons p rest ih =>
      by_cases hp : p.1 = k
      · simp [derase, dlookup, hp, h1, ih]
      · by_cases hq : p.1 = k'
        · simp [derase, dlookup, hp, hq, h, ih]
        · simp [derase, dlookup, hp, hq, ih]

theorem dlookup_append_single_self {α : Type} (k : String) (v : α)
    (l : List (String × α)) (h : hasKey k l = false) :
    dlookup k (l ++ [(k, v)]) = some v := by
  induction l with
  | nil => simp [dlookup]
  | cons p rest ih =>
      simp only [hasKey] at h
      by_cases hp : p.1 = k
      · simp [hp] at h
      · simp only [hp, if_false] at h
        simp [dlookup, hp, ih h]

theorem dlookup_map_set_self {α : Type} (k : String) (v : α)
    (l : List (String × α)) (h : hasKey k l = true) :
    dlookup k (l.map (fun p => if p.1 = k then (k, v) else p)) = some v := by
  induction l with
  | nil => simp [hasKey] at h
  | cons p rest ih =>
      by_cases hp : p.1 = k
      · simp [dlookup, hp]
      · simp only [hasKey, hp, if_false] at h
        simp [dlookup, hp, ih h]

theorem dlookup_dset_self {α : Type} (k : String) (v : α)
    (l : List (String × α)) : dlookup k (dset k v l) = some v := by
  cases hh : hasKey k l with
  | true => simp [dset, hh, dlookup_map_set_self k v l hh]
  | false => simp [dset, hh, dlookup_append_single_self k v l hh]

theorem dlookup_append_single_ne {α : Type} {k k' : String} (v : α)
    (l : List (String × α)) (h : k' ≠ k) :
    dlookup k' (l ++ [(k, v)]) = dlookup k' l := by
  have h1 : ¬(k = k') := fun he => h he.symm
  induction l with
  | nil => simp [dlookup, h1]
  | cons p rest ih =>
      by_cases hp : p.1 = k'
      · simp [dlookup, hp]
      · simp [dlookup, hp, ih]

theorem dlookup_map_set_ne {α : Type} {k k' : String} (v : α)
    (l : List (String × α)) (h : k' ≠ k) :
    dlookup k' (l.map (fun p => if p.1 = k then (k, v) else p)) =
      dlookup k' l := by
  have h1 : ¬(k = k') := fun he => h he.symm
  induction l with
  | nil => rfl
  | cons p rest ih =>
      by_cases hp : p.1 = k
      · simp [dlookup, hp, h1, ih]
      · simp [dlookup, hp, ih]

theorem dlookup_dset_ne {α : Type} {k k' : String} (v : α)
    (l : List (String × α)) (h : k' ≠ k) :
    dlookup k' (dset k v l) = dlookup k' l := by
  cases hh : hasKey k l with
  | true => simp [dset, hh, dlookup_map_set_ne v l h]
  | false => simp [dset, hh, dlookup_append_single_ne v l h]

theorem string_data_append (a b : String) : (a ++ b).data = a.data ++ b.data :=
  rfl

/-- A composite `"method.key"` string is never equal to a dot-free string. -/
theorem dot_key_ne (m k c : String) (h : ('.' : Char) ∉ c.data) :
    m ++ "." ++ k ≠ c := by
  intro he
  apply h
  rw [← he]
  show ('.' : Char) ∈ ((m ++ ".") ++ k).data
  rw [string_data_append, string_data_append]
  exact List.mem_append_left _ (List.mem_append_right _ (by decide))

/-- A composite `"method.key"` string is never equal to the bare key. -/
theorem dot_key_ne_key (m k : String) : m ++ "." ++ k ≠ k := by
  intro he
  have hl : ((m ++ ".") ++ k).length = k.length := by rw [he]
  rw [String.length_append, String.length_append] at hl
  have hd : (".").length = 1 := rfl
  rw [hd] at hl
  omega

/-- The shared captured-request record (`TestServer.request`), as shaped by
`reset` (server.py lines 55-63) and overwritten by `method_handler`
(lines 93-101).  `charset` is the configured decoding charset; fields that
`reset` sets to `None` are `Option`s. -/
structure RequestRecord : Type where
  args : List (String × String)
  headers : List (String × String)
  cookies : Option (List (String × String))
  path : Option String
  method : Option String
  charset : String
  data : Option String
deriving DecidableEq, Repr

/-- The blank shape `reset` installs into the captured-request record. -/
def blankRequest : RequestRecord :=
  { args := [], headers := [], cookies := none, path := none,
    method := none, charset := "utf-8", data := none }

/-- An inbound HTTP request as Tornado presents it to the handler:
`arguments` maps each query/body argument name to its list of values
(in arrival order), `body` is the raw body. -/
structure HttpRequest : Type where
  method : String
  path : String
  arguments : List (String × List String)
  headers : List (String × String)
  cookies : List (String × String)
  body : String
deriving DecidableEq, Repr

/-- ASCII lowercasing of one character (HTTP verbs are ASCII, so this
matches Python `str.lower()` on them). -/
def lowerChar (c : Char) : Char :=
  if c.isUpper then Char.ofNat (c.toNat + 32) else c

/-- Python `method.lower()` (server.py line 87) on ASCII method names. -/
def strLower (s : String) : String := ⟨s.data.map lowerChar⟩

instance {ε α : Type} [DecidableEq ε] [DecidableEq α] :
    DecidableEq (Except ε α) := fun x y =>
  match x, y with
  | .error a, .error b =>
      if h : a = b then isTrue (by rw [h])
      else isFalse (by intro he; cases he; exact h rfl)
  | .ok a, .ok b =>
      if h : a = b then isTrue (by rw [h])
      else isFalse (by intro he; cases he; exact h rfl)
  | .error _, .ok _ => isFalse (fun he => Except.noConfusion he)
  | .ok _, .error _ => isFalse (fun he => Except.noConfusion he)

/-- Tornado `get_argument(name)`: the last value supplied for the name. -/
def lastArgument (vals : List String) : String :=
  (vals.getLast?).getD ""

/-- The `args` dict built by server.py lines 93-95: one entry per argument
name, holding `get_argument(name)` (last value wins for repeated names). -/
def argsOf (req : HttpRequest) : List (String × String) :=
  req.arguments.map (fun p => (p.1, lastArgument p.2))

/-- Capture-buffer overwrite, server.py lines 93-101: `args`, `headers`,
`path`, `method`, `cookies` and `data` are replaced with the new request's
values; line 100 only reads `charset` from the buffer, so `charset` keeps
its previous (configured) value. -/
def capture (req : HttpRequest) (buf : RequestRecord) : RequestRecord :=
  { args := argsOf req, headers := req.headers, path := some req.path,
    method := some req.method, cookies := some req.cookies,
    charset := buf.charset, data := some req.body }

/-- Python truthiness of a stored value (used by `if sleep:` on line 90). -/
def truthy : Val → Bool
  | .vNone => false
  | .vInt n => n != 0
  | .vRat q => q != 0
  | .vStr s => s != ""
  | .vPairs l => !l.isEmpty
  | .vFunc _ => true

/-- Unpacking a configured value as an iterable of pairs
(`for key, val in ...`, server.py lines 110 and 115); any other shape
raises a `TypeError` at the `for` loop. -/
def asPairs : Val → Option (List (String × String))
  | .vPairs l => some l
  | _ => none

/-- Tornado `set_header`: replace the value of an existing header name,
else append the header. -/
def setHeader (k v : String) (l : List (String × String)) :
    List (String × String) :=
  if hasKey k l then l.map (fun p => if p.1 = k then (k, v) else p)
  else l ++ [(k, v)]

/-- Tornado `add_header`: always append (allows repeated `Set-Cookie`). -/
def addHeader (k v : String) (l : List (String × String)) :
    List (String × String) :=
  l ++ [(k, v)]

/-- The response the handler composes in its non-callback branch:
resolved status value, accumulated headers, and the body value written
(`data()` result if `data` is callable, else `data` itself). -/
structure ComposedResponse : Type where
  status : Val
  headers : List (String × String)
  body : Val
deriving DecidableEq, Repr

/-- Status/header/body composition, server.py lines 107-132: resolve
`code`, add one `Set-Cookie` per cookie pair, set each configured header
(recording its name), set `Listen-Port` to the accepting listener's port,
auto-set `Content-Type` unless it was among the configured header names,
then resolve `data` and write it (calling it first when callable). -/
def composeCore (method : String) (port : Nat) (s : ServerState) :
    Except PyError (ServerState × ComposedResponse) :=
  match get_param "code" method true s with
  | .error e => .error e
  | .ok (code, s2) =>
    match get_param "cookies" method true s2 with
    | .error e => .error e
    | .ok (cookiesVal, s3) =>
      match asPairs cookiesVal with
      | none => .error .typeError
      | some cookiePairs =>
        let hs0 := cookiePairs.foldl
          (fun acc kv => addHeader "Set-Cookie" (kv.1 ++ "=" ++ kv.2) acc) []
        match get_param "headers" method true s3 with
        | .error e => .error e
        | .ok (headersVal, s4) =>
          match asPairs headersVal with
          | none => .error .typeError
          | some headerPairs =>
            let hs1 := headerPairs.foldl
              (fun acc kv => setHeader kv.1 kv.2 acc) hs0
            let headersSent := headerPairs.map Prod.fst
            let hs2 := setHeader "Listen-Port" (toString port) hs1
            let hs3 :=
              if "Content-Type" ∈ headersSent then hs2
              else setHeader "Content-Type" "text/html; charset=utf-8" hs2
            match get_param "data" method true s4 with
            | .error e => .error e
            | .ok (dataVal, s5) =>
              let body := match dataVal with
                | .vFunc ret => ret
                | v => v
              .ok (s5, { status := code, headers := hs3, body := body })

/-- The timeout-iterator step guarding `finish()`, server.py lines 134-138:
`None` is falsy so no delay is taken; a present iterator is always truthy
(even when exhausted), and `next()` on an exhausted iterator raises
`StopIteration`, so `finish()` is never reached without consuming a value.
Returns the delay taken and the remaining iterator. -/
def timeoutStep : Option (List Rat) →
    Except PyError (Option Rat × Option (List Rat))
  | none => .ok (none, none)
  | some [] => .error .stopIteration
  | some (d :: rest) => .ok (some d, some (d :: rest).tail)

/-- Outcome of one handled request: either the configured per-method
callback was invoked with the in-progress response (and the handler did
nothing else), or the handler composed and finished a response, possibly
after a final delay consumed from the timeout iterator. -/
inductive Outcome : Type where
  | delegated (cb : Val) : Outcome
  | composed (resp : ComposedResponse) (finalDelay : Option Rat) : Outcome
deriving DecidableEq, Repr

/-- Everything one `method_handler` run produces: the configuration store
after any one-shot consumption, the remaining timeout iterator, the
overwritten capture buffer, the pre-handling sleep taken (if truthy), and
the response outcome. -/
structure HandlerResult : Type where
  store : ServerState
  tio : Option (List Rat)
  buffer : RequestRecord
  sleepDelay : Option Val
  outcome : Outcome
deriving DecidableEq, Repr

/-- `MainHandler.method_handler` (server.py lines 86-138): resolve `sleep`
for the lowercased method (optionally suspending), overwrite the capture
buffer, then either delegate to a configured `"<method>_callback"` entry of
the response store (`.get`, no one-shot consumption, `is not None` test) or
compose the response and run the timeout-iterator step before `finish()`. -/
def method_handler (req : HttpRequest) (port : Nat) (s : ServerState)
    (buf : RequestRecord) (tio : Option (List Rat)) :
    Except PyError HandlerResult :=
  let method := strLower req.method
  match get_param "sleep" method true s with
  | .error e => .error e
  | .ok (sleepVal, s1) =>
    let sleepDelay := if truthy sleepVal then some sleepVal else none
    let buf1 := capture req buf
    let cbVal := (dlookup (method ++ "_callback") s1.response).getD .vNone
    if cbVal = .vNone then
      match composeCore method port s1 with
      | .error e => .error e
      | .ok (s5, resp) =>
        match timeoutStep tio with
        | .error e => .error e
        | .ok (delay, tioRest) =>
          .ok { store := s5, tio := tioRest, buffer := buf1,
                sleepDelay := sleepDelay,
                outcome := .composed resp delay }
    else
      .ok { store := s1, tio := tio, buffer := buf1,
            sleepDelay := sleepDelay, outcome := .delegated cbVal }

/-- A `TestServer` Python instance, modelled for attribute resolution of the
captured-request record: `requestBinding` is the instance `__dict__` entry
for the name `request` (an address into the heap of request-record objects),
or `none` when the instance has no such entry.  No statement in server.py
ever assigns `self.request = ...` (reset uses `self.request.update(...)`),
so instances built by `__init__` carry no binding; attributes that are
rebound per instance (`response`, `response_once`, `port`, ...) do not
shadow `request` and are modelled by `ServerState` separately. -/
structure PyInstance : Type where
  requestBinding : Option Nat
deriving DecidableEq, Repr

/-- The heap of request-record dict objects, addressed by `Nat`. -/
def RequestHeap : Type := Nat → RequestRecord

/-- The address of the single dict created by the class-body statement
`request = {}` (server.py line 18), shared by the whole class. -/
def classRequestAddr : Nat := 0

/-- Python attribute resolution for `self.request`: the instance
`__dict__` first, falling back to the class attribute. -/
def requestAddr (i : PyInstance) : Nat :=
  i.requestBinding.getD classRequestAddr

/-- The instance `TestServer.__init__` produces: it binds `port`,
`address`, `extra_ports`, `_handler` and `_thread`, and calls `reset`,
none of which creates an instance-level `request` binding. -/
def mkInstance : PyInstance := { requestBinding := none }

/-- Reading `instance.request`. -/
def readRequest (i : PyInstance) (h : RequestHeap) : RequestRecord :=
  h (requestAddr i)

/-- `self.request.update({...})` inside `reset` (server.py lines 55-63):
an in-place mutation of the dict object that `self.request` resolves to,
setting every field of the record to its blank value; no rebinding. -/
def resetRequestRecord (i : PyInstance) (h : RequestHeap) : RequestHeap :=
  fun a => if a = requestAddr i then blankRequest else h a

/-- The capture-buffer writes of `method_handler` (lines 93-101), performed
through whatever dict object `SERVER.request` resolves to. -/
def captureInto (i : PyInstance) (req : HttpRequest) (h : RequestHeap) :
    RequestHeap :=
  fun a => if a = requestAddr i then capture req (h (requestAddr i)) else h a

/-- The nine HTTP verbs listed by the class attribute `TestServer.methods`
(server.py lines 23-24). -/
def TestServer.methods : List String :=
  ["get", "post", "head", "options", "put", "delete",
   "patch", "trace", "connect"]

/-- The verbs `MainHandler` actually binds to `method_handler`
(server.py lines 140-144). -/
def mainHandlerVerbs : List String :=
  ["get", "post", "put", "patch", "delete"]

/-- Consuming a one-shot key: the store with that key deleted from
`response_once` and the response dict untouched. -/
def consumeKey (k : String) (s : ServerState) : ServerState :=
  { s with response_once := derase k s.response_once }

/-- A composite `"m.k"` key never collides with the six dot-free keys of
the default response dict. -/
theorem dlookup_defaultResponse_dot (m k : String) :
    dlookup (m ++ "." ++ k) defaultResponse = none := by
  have h1 : ¬("code" = m ++ "." ++ k) :=
    fun he => dot_key_ne m k "code" (by decide) he.symm
  have h2 : ¬("data" = m ++ "." ++ k) :=
    fun he => dot_key_ne m k "data" (by decide) he.symm
  have h3 : ¬("headers" = m ++ "." ++ k) :=
    fun he => dot_key_ne m k "headers" (by decide) he.symm
  have h4 : ¬("cookies" = m ++ "." ++ k) :=
    fun he => dot_key_ne m k "cookies" (by decide) he.symm
  have h5 : ¬("callback" = m ++ "." ++ k) :=
    fun he => dot_key_ne m k "callback" (by decide) he.symm
  have h6 : ¬("sleep" = m ++ "." ++ k) :=
    fun he => dot_key_ne m k "sleep" (by decide) he.symm
  simp [defaultResponse, dlookup, h1, h2, h3, h4, h5, h6]

/-- Claim C1: for every field key and method, `get_param` returns the value
of the first populated tier in the order one-shot `"M.F"`, one-shot `"F"`,
per-method `"M.F"` in the response store, default `"F"` in the response
store, and it raises the `TestServerRuntimeError` lookup error exactly when
none of the four tiers holds a value. -/
theorem getParam_resolution_order (key method : String) (c : Bool)
    (s : ServerState) :
    valueOf (get_param key method c s) = resolve4 key method s
    ∧ (get_param key method c s =
        .error (.runtimeError
          ("Parameter " ++ key ++ " does not exists in server response data"))
      ↔ resolve4 key method s = none) := by
  cases h1 : dlookup (method ++ "." ++ key) s.response_once <;>
    cases h2 : dlookup key s.response_once <;>
      cases h3 : dlookup (method ++ "." ++ key) s.response <;>
        cases h4 : dlookup key s.response <;>
          simp [get_param, resolve4, valueOf, h1, h2, h3, h4, Option.orElse]

/-- When only the default tier holds the field, `get_param` answers from it
and leaves the store unchanged. -/
theorem get_param_tier4 (key method : String) (c : Bool) (s : ServerState)
    (v : Val)
    (h1 : dlookup (method ++ "." ++ key) s.response_once = none)
    (h2 : dlookup key s.response_once = none)
    (h3 : dlookup (method ++ "." ++ key) s.response = none)
    (h4 : dlookup key s.response = some v) :
    get_param key method c s = .ok (v, s) := by
  simp [get_param, h1, h2, h3, h4]

/-- Claim C3: after `reset`, resolving `code`, `data`, `headers` or
`cookies` for any method never raises the lookup error — the default tier
always answers (with 200, the empty string, the empty header list and the
empty cookie list respectively), leaving the store unchanged. -/
theorem reset_defaults_never_missing (m : String) :
    get_param "code" m true resetState = .ok (.vInt 200, resetState)
    ∧ get_param "data" m true resetState = .ok (.vStr "", resetState)
    ∧ get_param "headers" m true resetState = .ok (.vPairs [], resetState)
    ∧ get_param "cookies" m true resetState = .ok (.vPairs [], resetState) :=
  ⟨get_param_tier4 "code" m true resetState (.vInt 200) rfl rfl
      (dlookup_defaultResponse_dot m "code") rfl,
    get_param_tier4 "data" m true resetState (.vStr "") rfl rfl
      (dlookup_defaultResponse_dot m "data") rfl,
    get_param_tier4 "headers" m true resetState (.vPairs []) rfl rfl
      (dlookup_defaultResponse_dot m "headers") rfl,
    get_param_tier4 "cookies" m true resetState (.vPairs []) rfl rfl
      (dlookup_defaultResponse_dot m "cookies") rfl⟩

/-- Claim C9: `get_param` consumes only the tier it returns.  When a
method-qualified one-shot entry exists, resolving deletes exactly that key
from `response_once` (the bare one-shot key and every other key keep their
values, and the response store is untouched); and with `clear_once = false`
the store is returned entirely unchanged whatever tier answered. -/
theorem getParam_frame_effect (s : ServerState) (key method : String) :
    (∀ v, dlookup (method ++ "." ++ key) s.response_once = some v →
      get_param key method true s =
        .ok (v, consumeKey (method ++ "." ++ key) s)
      ∧ dlookup key (derase (method ++ "." ++ key) s.response_once) =
          dlookup key s.response_once
      ∧ ∀ k', k' ≠ method ++ "." ++ key →
          dlookup k' (derase (method ++ "." ++ key) s.response_once) =
            dlookup k' s.response_once)
    ∧ (∀ v s', get_param key method false s = .ok (v, s') → s' = s) := by
  constructor
  · intro v hv
    refine ⟨by simp [get_param, hv, consumeKey], ?_, ?_⟩
    · exact dlookup_derase_ne _ (dot_key_ne_key method key).symm
    · intro k' hk'
      exact dlookup_derase_ne _ hk'
  · intro v s' hres
    cases h1 : dlookup (method ++ "." ++ key) s.response_once with
    | some w =>
        simp [get_param, h1] at hres
        exact hres.2.symm
    | none =>
      cases h2 : dlookup key s.response_once with
      | some w =>
          simp [get_param, h1, h2] at hres
          exact hres.2.symm
      | none =>
        cases h3 : dlookup (method ++ "." ++ key) s.response with
        | some w =>
            simp [get_param, h1, h2, h3] at hres
            exact hres.2.symm
        | none =>
          cases h4 : dlookup key s.response with
          | some w =>
              simp [get_param, h1, h2, h3, h4] at hres
              exact hres.2.symm
          | none => simp [get_param, h1, h2, h3, h4] at hres

/-- A concrete store holding both a method-qualified and a bare one-shot
entry for the field `data`, over the default response. -/
def c9State : ServerState :=
  { response_once := [("post.data", .vStr "once"), ("data", .vStr "bare")],
    response := defaultResponse }

/-- Witness for claim C9 at a concrete store: consuming the one-shot
`"post.data"` entry returns its value, and the bare `"data"` one-shot
entry survives with its value intact. -/
theorem getParam_frame_effect_witness :
    get_param "data" "post" true c9State =
      .ok (.vStr "once", consumeKey ("post" ++ "." ++ "data") c9State)
    ∧ dlookup "data"
        (derase ("post" ++ "." ++ "data") c9State.response_once) =
      some (.vStr "bare") :=
  let h := (getParam_frame_effect c9State "data" "post").1
    (.vStr "once") (by decide)
  ⟨h.1, (h.2.1).trans (by decide)⟩

/-- Claim C2: in a store with no bare one-shot entry for the field, setting
a one-shot override under `"method.field"` makes exactly the next
consuming resolution observe that value (deleting the entry), and the
resolution after that observes the per-method override when present, else
the default. -/
theorem oneShot_consumed_exactly_once (s : ServerState) (key method : String)
    (v : Val) (hbare : dlookup key s.response_once = none) :
    get_param key method true (setOnce (method ++ "." ++ key) v s) =
      .ok (v, consumeKey (method ++ "." ++ key) (setOnce (method ++ "." ++ key) v s))
    ∧ valueOf (get_param key method true
        (consumeKey (method ++ "." ++ key) (setOnce (method ++ "." ++ key) v s))) =
      (dlookup (method ++ "." ++ key) s.response).orElse
        (fun _ => dlookup key s.response) := by
  have hkm : key ≠ method ++ "." ++ key := (dot_key_ne_key method key).symm
  constructor
  · simp [get_param, setOnce, consumeKey, dlookup_dset_self]
  · have hm : dlookup (method ++ "." ++ key)
        (derase (method ++ "." ++ key)
          (dset (method ++ "." ++ key) v s.response_once)) = none :=
      dlookup_derase_self _ _
    have hk : dlookup key
        (derase (method ++ "." ++ key)
          (dset (method ++ "." ++ key) v s.response_once)) = none := by
      rw [dlookup_derase_ne _ hkm, dlookup_dset_ne _ _ hkm]
      exact hbare
    cases h3 : dlookup (method ++ "." ++ key) s.response with
    | some w =>
        simp [get_param, setOnce, consumeKey, hm, hk, h3, valueOf,
          Option.orElse]
    | none =>
      cases h4 : dlookup key s.response with
      | some w =>
          simp [get_param, setOnce, consumeKey, hm, hk, h3, h4, valueOf,
            Option.orElse]
      | none =>
          simp [get_param, setOnce, consumeKey, hm, hk, h3, h4, valueOf,
            Option.orElse]

/-- Witness for claim C2 on the reset store: a one-shot `"get.data"`
override is observed by exactly the first consuming resolution of `data`
for `get`; the second resolution observes the default empty string. -/
theorem oneShot_consumed_exactly_once_witness :
    valueOf (get_param "data" "get" true
      (setOnce ("get" ++ "." ++ "data") (.vStr "one") resetState)) =
      some (.vStr "one")
    ∧ valueOf (get_param "data" "get" true
        (consumeKey ("get" ++ "." ++ "data")
          (setOnce ("get" ++ "." ++ "data") (.vStr "one") resetState))) =
      some (.vStr "") :=
  let h := oneShot_consumed_exactly_once resetState "data" "get"
    (.vStr "one") (by decide)
  ⟨by rw [h.1]; rfl, h.2.trans (by decide)⟩

/-- A first concrete request: repeated argument name, one header, one
cookie. -/
def c5Request1 : HttpRequest :=
  { method := "GET", path := "/a", arguments := [("x", ["1", "2"])],
    headers := [("H1", "v1")], cookies := [("c", "1")], body := "b1" }

/-- A second concrete request, distinct from the first in every field. -/
def c5Request2 : HttpRequest :=
  { method := "POST", path := "/b", arguments := [("y", ["3"])],
    headers := [("H2", "v2")], cookies := [], body := "b2" }

/-- Claim C5 as stated is false: the buffer's `charset` field is not
overwritten by the new request.  Capturing the same request over buffers
whose charsets differ yields different buffers (so the result is not a
function of the request alone), and a previously configured charset
`"koi8-r"` survives two successive captures. -/
theorem capture_charset_not_overwritten :
    capture c5Request2 { blankRequest with charset := "koi8-r" } ≠
      capture c5Request2 blankRequest
    ∧ (capture c5Request2 (capture c5Request1
        { blankRequest with charset := "koi8-r" })).charset = "koi8-r" := by
  decide

/-- Claim C5 amended: after two successive requests the buffer matches the
second request in `args` (last value wins per repeated name), `headers`,
`path`, `method`, `cookies` and raw body — independent of the first request
and of the prior buffer contents — while `charset` is not overwritten: it
keeps the initially configured value. -/
theorem capture_overwrites_all_but_charset (b0 : RequestRecord)
    (r1 r2 : HttpRequest) :
    (capture r2 (capture r1 b0)).args = argsOf r2
    ∧ (capture r2 (capture r1 b0)).headers = r2.headers
    ∧ (capture r2 (capture r1 b0)).path = some r2.path
    ∧ (capture r2 (capture r1 b0)).method = some r2.method
    ∧ (capture r2 (capture r1 b0)).cookies = some r2.cookies
    ∧ (capture r2 (capture r1 b0)).data = some r2.body
    ∧ (capture r2 (capture r1 b0)).charset = b0.charset := by
  simp [capture]

/-- Claim C8 fails on the code: of the nine verbs the class attribute
`TestServer.methods` declares, `MainHandler` binds only five to
`method_handler` — `head`, `options`, `trace` and `connect` are left to
Tornado's default handling (405 Method Not Allowed), not to the
configured-response logic. -/
theorem methods_not_all_bound :
    ("head" ∈ TestServer.methods ∧ "head" ∉ mainHandlerVerbs)
    ∧ ("options" ∈ TestServer.methods ∧ "options" ∉ mainHandlerVerbs)
    ∧ ("trace" ∈ TestServer.methods ∧ "trace" ∉ mainHandlerVerbs)
    ∧ ("connect" ∈ TestServer.methods ∧ "connect" ∉ mainHandlerVerbs)
    ∧ mainHandlerVerbs.all (fun v => TestServer.methods.contains v) = true := by
  decide

/-- Claim C10: instances with no instance-level `request` binding (which is
every instance `__init__` produces, since the code only ever mutates
`self.request` in place) resolve `request` to the same class-level dict:
a `reset` through one instance blanks the record seen by the other, and a
request handled through one instance is visible through the other. -/
theorem shared_capture_buffer_across_instances (i1 i2 : PyInstance)
    (h : RequestHeap) (r : HttpRequest)
    (hb1 : i1.requestBinding = none) (hb2 : i2.requestBinding = none) :
    requestAddr i1 = requestAddr i2
    ∧ readRequest i2 (resetRequestRecord i1 h) = blankRequest
    ∧ readRequest i2 (captureInto i1 r h) = capture r (readRequest i1 h) := by
  have e1 : requestAddr i1 = classRequestAddr := by simp [requestAddr, hb1]
  have e2 : requestAddr i2 = classRequestAddr := by simp [requestAddr, hb2]
  refine ⟨e1.trans e2.symm, ?_, ?_⟩
  · simp [readRequest, resetRequestRecord, e1, e2]
  · simp [readRequest, captureInto, e1, e2]

/-- A concrete heap whose class-level request record is blank. -/
def c10Heap : RequestHeap := fun _ => blankRequest

/-- A concrete request used to exercise the shared buffer. -/
def c10Request : HttpRequest :=
  { method := "GET", path := "/w", arguments := [], headers := [],
    cookies := [], body := "B" }

/-- Witness for claim C10 at two freshly constructed instances. -/
theorem shared_capture_buffer_across_instances_witness :
    requestAddr mkInstance = requestAddr mkInstance
    ∧ readRequest mkInstance (resetRequestRecord mkInstance c10Heap) =
        blankRequest
    ∧ readRequest mkInstance (captureInto mkInstance c10Request c10Heap) =
        capture c10Request (readRequest mkInstance c10Heap) :=
  shared_capture_buffer_across_instances mkInstance mkInstance c10Heap
    c10Request rfl rfl

/-- Claim C4: when the response store holds a non-`None` value under the
key `"<method>_callback"`, `method_handler` delegates to it: the result
records the callback invoked with the in-progress response and nothing
else — no status is set, no `Set-Cookie` or configured headers are
applied, no `Content-Type` is auto-set and no body is written (the
`Outcome.delegated` constructor carries no composed response at all), and
the store is left as the sleep resolution produced it. -/
theorem callback_delegation_bypasses_composition (req : HttpRequest)
    (port : Nat) (s : ServerState) (buf : RequestRecord)
    (tio : Option (List Rat)) (sleepVal : Val) (s1 : ServerState) (cb : Val)
    (hs : get_param "sleep" (strLower req.method) true s = .ok (sleepVal, s1))
    (hcb : dlookup (strLower req.method ++ "_callback") s1.response = some cb)
    (hne : cb ≠ .vNone) :
    method_handler req port s buf tio =
      .ok { store := s1, tio := tio, buffer := capture req buf,
            sleepDelay := if truthy sleepVal then some sleepVal else none,
            outcome := .delegated cb } := by
  simp [method_handler, hs, hcb, hne]

/-- A store configured with a `post_callback` function over the defaults. -/
def c4State : ServerState :=
  { response_once := [],
    response := dset "post_callback" (.vFunc (.vStr "cb-body"))
      defaultResponse }

/-- A concrete POST request for the callback scenario. -/
def c4Request : HttpRequest :=
  { method := "POST", path := "/cb", arguments := [], headers := [],
    cookies := [], body := "" }

/-- Witness for claim C4: with `post_callback` configured, a POST request
produces a delegated outcome carrying exactly the configured callback. -/
theorem callback_delegation_bypasses_composition_witness :
    method_handler c4Request 9876 c4State blankRequest none =
      .ok { store := c4State, tio := none,
            buffer := capture c4Request blankRequest,
            sleepDelay := none,
            outcome := .delegated (.vFunc (.vStr "cb-body")) } :=
  let h := callback_delegation_bypasses_composition c4Request 9876 c4State
    blankRequest none .vNone c4State (.vFunc (.vStr "cb-body"))
    (by decide) (by decide) (by decide)
  h.trans (by decide)

theorem mem_setHeader_self (k v : String) (l : List (String × String)) :
    (k, v) ∈ setHeader k v l := by
  unfold setHeader
  by_cases h : hasKey k l = true
  · simp only [h, if_true]
    induction l with
    | nil => simp [hasKey] at h
    | cons p rest ih =>
        by_cases hp : p.1 = k
        · simp [hp]
        · simp only [hasKey, hp, if_false] at h
          simp [hp, ih h]
  · simp [h]

theorem mem_setHeader_ne (j w k v : String) (l : List (String × String))
    (h : j ≠ k) (hm : (j, w) ∈ l) : (j, w) ∈ setHeader k v l := by
  unfold setHeader
  by_cases hk : hasKey k l = true
  · simp only [hk, if_true]
    refine List.mem_map.mpr ⟨(j, w), hm, ?_⟩
    simp [h]
  · simp [hk, List.mem_append, hm]

/-- Whenever the composing branch completes, the composed headers contain
the `Listen-Port` header carrying the accepting listener's port. -/
theorem composeCore_listen_port (method : String) (port : Nat)
    (s s5 : ServerState) (resp : ComposedResponse)
    (hc : composeCore method port s = .ok (s5, resp)) :
    ("Listen-Port", toString port) ∈ resp.headers := by
  unfold composeCore at hc
  cases h1 : get_param "code" method true s with
  | error e => simp [h1] at hc
  | ok p1 =>
    obtain ⟨code, s2⟩ := p1
    simp only [h1] at hc
    cases h2 : get_param "cookies" method true s2 with
    | error e => simp [h2] at hc
    | ok p2 =>
      obtain ⟨cookiesVal, s3⟩ := p2
      simp only [h2] at hc
      cases h3 : asPairs cookiesVal with
      | none => simp [h3] at hc
      | some cookiePairs =>
        simp only [h3] at hc
        cases h4 : get_param "headers" method true s3 with
        | error e => simp [h4] at hc
        | ok p4 =>
          obtain ⟨headersVal, s4⟩ := p4
          simp only [h4] at hc
          cases h5 : asPairs headersVal with
          | none => simp [h5] at hc
          | some headerPairs =>
            simp only [h5] at hc
            cases h6 : get_param "data" method true s4 with
            | error e => simp [h6] at hc
            | ok p6 =>
              obtain ⟨dataVal, s5x⟩ := p6
              simp only [h6] at hc
              simp at hc
              obtain ⟨hc1, hc2⟩ := hc
              rw [← hc2]
              by_cases hct :
                  "Content-Type" ∈ headerPairs.map Prod.fst
              · simp only [hct, if_true]
                exact mem_setHeader_self _ _ _
              · simp only [hct, if_false]
                exact mem_setHeader_ne _ _ _ _ _ (by decide)
                  (mem_setHeader_self _ _ _)

/-- Claim C7 amended: every response the handler composes itself (i.e.
whenever the outcome is `composed`, which is exactly the no-callback case)
carries a `Listen-Port` header whose value is the accepting listener's
port.  (A callback-delegated response carries only what the callback
writes; the handler sets no header there — see the counterexample.) -/
theorem listen_port_on_composed_responses (req : HttpRequest) (port : Nat)
    (s : ServerState) (buf : RequestRecord) (tio : Option (List Rat))
    (r : HandlerResult) (resp : ComposedResponse) (fd : Option Rat)
    (hr : method_handler req port s buf tio = .ok r)
    (ho : r.outcome = .composed resp fd) :
    ("Listen-Port", toString port) ∈ resp.headers := by
  unfold method_handler at hr
  cases hs : get_param "sleep" (strLower req.method) true s with
  | error e => simp [hs] at hr
  | ok p =>
    obtain ⟨sleepVal, s1⟩ := p
    simp only [hs] at hr
    by_cases hcb :
        (dlookup (strLower req.method ++ "_callback") s1.response).getD
          Val.vNone = Val.vNone
    · rw [if_pos hcb] at hr
      cases hc : composeCore (strLower req.method) port s1 with
      | error e => simp [hc] at hr
      | ok q =>
        obtain ⟨s5, resp0⟩ := q
        simp only [hc] at hr
        cases ht : timeoutStep tio with
        | error e => simp [ht] at hr
        | ok pr =>
          obtain ⟨delay, tioRest⟩ := pr
          simp only [ht] at hr
          simp at hr
          rw [← hr] at ho
          simp at ho
          obtain ⟨ho1, ho2⟩ := ho
          rw [← ho1]
          exact composeCore_listen_port _ _ _ _ _ hc
    · rw [if_neg hcb] at hr
      simp at hr
      rw [← hr] at ho
      simp at ho

/-- A store configured with a `get_callback` function over the defaults. -/
def c7State : ServerState :=
  { response_once := [],
    response := dset "get_callback" (.vFunc .vNone) defaultResponse }

/-- A concrete GET request for the callback scenario. -/
def c7Request : HttpRequest :=
  { method := "GET", path := "/p", arguments := [], headers := [],
    cookies := [], body := "" }

/-- The handler outcome for `c7Request` against `c7State`. -/
def c7Result : HandlerResult :=
  { store := c7State, tio := none,
    buffer := capture c7Request blankRequest, sleepDelay := none,
    outcome := .delegated (.vFunc .vNone) }

/-- The headers the handler itself attaches to a response: all of the
composed headers in the composing branch, none in the callback branch
(server.py sets headers only in the `else` of lines 104-132). -/
def handlerSetHeaders : Outcome → List (String × String)
  | .delegated _ => []
  | .composed resp _ => resp.headers

/-- Claim C7 as stated is false: with a per-method callback configured the
request completes via delegation and the handler attaches no `Listen-Port`
header (the response is whatever the callback writes). -/
theorem callback_response_lacks_listen_port :
    method_handler c7Request 9876 c7State blankRequest none = .ok c7Result
    ∧ ("Listen-Port", "9876") ∉ handlerSetHeaders c7Result.outcome := by
  decide

/-- A concrete GET request for the composing scenario. -/
def c7OkRequest : HttpRequest :=
  { method := "GET", path := "/q", arguments := [], headers := [],
    cookies := [], body := "" }

/-- The response composed for `c7OkRequest` against the reset store. -/
def c7OkResp : ComposedResponse :=
  { status := .vInt 200,
    headers := [("Listen-Port", "9876"),
                ("Content-Type", "text/html; charset=utf-8")],
    body := .vStr "" }

/-- The handler outcome for `c7OkRequest` against the reset store. -/
def c7OkResult : HandlerResult :=
  { store := resetState, tio := none,
    buffer := capture c7OkRequest blankRequest, sleepDelay := none,
    outcome := .composed c7OkResp none }

/-- Witness for the amended claim C7: a composed response on port 9876
carries `Listen-Port: 9876`. -/
theorem listen_port_on_composed_responses_witness :
    ("Listen-Port", toString 9876) ∈ c7OkResp.headers :=
  listen_port_on_composed_responses c7OkRequest 9876 resetState
    blankRequest none c7OkResult c7OkResp none (by decide) (by decide)

/-- Claim C6: when a timeout iterator is configured, a request that reaches
the handler's completion step consumes exactly one duration from it and
delays `finish()` by that amount (everything else about the handling being
unchanged), while a request arriving once the iterator is exhausted raises
the `StopIteration` error from `next()` before `finish()` — it is not
silently completed without delay. -/
theorem timeout_iterator_consumed_and_exhaustion_raises (req : HttpRequest)
    (port : Nat) (s : ServerState) (buf : RequestRecord)
    (r0 : HandlerResult) (resp : ComposedResponse) (d : Rat)
    (rest : List Rat)
    (h0 : method_handler req port s buf none = .ok r0)
    (h1 : r0.outcome = .composed resp none) :
    method_handler req port s buf (some (d :: rest)) =
      .ok { store := r0.store, tio := some rest, buffer := r0.buffer,
            sleepDelay := r0.sleepDelay,
            outcome := .composed resp (some d) }
    ∧ method_handler req port s buf (some []) = .error .stopIteration := by
  unfold method_handler at h0 ⊢
  cases hs : get_param "sleep" (strLower req.method) true s with
  | error e => simp [hs] at h0
  | ok p =>
    obtain ⟨sleepVal, s1⟩ := p
    simp only [hs] at h0 ⊢
    by_cases hcb :
        (dlookup (strLower req.method ++ "_callback") s1.response).getD
          Val.vNone = Val.vNone
    · rw [if_pos hcb] at h0 ⊢
      cases hc : composeCore (strLower req.method) port s1 with
      | error e => simp [hc] at h0
      | ok q =>
        obtain ⟨s5, resp0⟩ := q
        simp only [hc, timeoutStep] at h0 ⊢
        simp at h0
        subst h0
        simp at h1
        subst h1
        constructor <;> simp [hcb]
    · rw [if_neg hcb] at h0
      simp at h0
      subst h0
      simp at h1

/-- A concrete GET request for the timeout-iterator scenario. -/
def c6Request : HttpRequest :=
  { method := "GET", path := "/t", arguments := [], headers := [],
    cookies := [], body := "" }

/-- The response composed for `c6Request` against the reset store. -/
def c6Resp : ComposedResponse :=
  { status := .vInt 200,
    headers := [("Listen-Port", "9876"),
                ("Content-Type", "text/html; charset=utf-8")],
    body := .vStr "" }

/-- The handler outcome for `c6Request` with no timeout iterator. -/
def c6Result : HandlerResult :=
  { store := resetState, tio := none,
    buffer := capture c6Request blankRequest, sleepDelay := none,
    outcome := .composed c6Resp none }

/-- Witness for claim C6: with iterator `[1, 3]` the request consumes the
leading `1` and leaves `[3]`; with an exhausted iterator the same request
raises `StopIteration` instead of finishing. -/
theorem timeout_iterator_consumed_and_exhaustion_raises_witness :
    method_handler c6Request 9876 resetState blankRequest
        (some ((1 : Rat) :: [3])) =
      .ok { store := c6Result.store, tio := some [(3 : Rat)],
            buffer := c6Result.buffer, sleepDelay := c6Result.sleepDelay,
            outcome := .composed c6Resp (some 1) }
    ∧ method_handler c6Request 9876 resetState blankRequest (some []) =
        .error .stopIteration :=
  timeout_iterator_consumed_and_exhaustion_raises c6Request 9876 resetState
    blankRequest c6Result c6Resp 1 [3] (by decide) (by decide)
